import Mathlib

/-!
# PDFQuery front end: session-scoped client orchestration

A shallow embedding of `frontend/src/api.js`, `frontend/src/App.js`,
`frontend/src/components/FileUpload.js` and
`frontend/src/components/ChatInterfaces.js`.

Conventions of the embedding
* React state (`useState`) is a record field; a setter call is a record update.
* A JavaScript object with string values (`localStorage`, axios `headers`) is an
  association list with at most the first binding of a key visible.
* `undefined` / `null` is `none`.
* An `async` function is split at its `await`: the part before the `await`
  (`_send` / `_begin`) and the continuation that runs when the promise settles
  (`_settle`), which receives the server outcome as `Except Err _`
  (`.error` is a rejected promise: network error or non-2xx status).  The
  function named like the source is the two run back to back.
* Every request handed to axios is appended to `World.requests` after the request
  interceptor has run on it.
* `console.log` / `console.error` have no effect on the state and are left out.
-/

namespace PDFQuery

/-! ## JavaScript values used by the code -/

/-- A JavaScript object whose property values are strings. -/
abbrev Dict := List (String × String)

/-- Property read `obj[k]` (`none` when the property is missing). -/
def Dict.get : Dict → String → Option String
  | [], _ => none
  | (k', v) :: rest, k => if k' = k then some v else Dict.get rest k

/-- Property write `obj[k] = v`. -/
def Dict.set : Dict → String → String → Dict
  | [], k, v => [(k, v)]
  | (k', v') :: rest, k, v =>
      if k' = k then (k, v) :: rest else (k', v') :: Dict.set rest k v

/-- Property removal `delete obj[k]`. -/
def Dict.remove : Dict → String → Dict
  | [], _ => []
  | (k', v') :: rest, k =>
      if k' = k then Dict.remove rest k else (k', v') :: Dict.remove rest k

/-- Truthiness of a value that is a string, `undefined` or `null`:
only a non-empty string is truthy. -/
def truthy : Option String → Bool
  | some s => s != ""
  | none => false

/-- Code points removed by `String.prototype.trim`: ECMAScript WhiteSpace
(TAB, VT, FF, ZWNBSP and the Unicode category Zs) and LineTerminator
(LF, CR, LS, PS). -/
def isJsWhiteSpace (c : Char) : Bool :=
  c.toNat ∈ [0x09, 0x0A, 0x0B, 0x0C, 0x0D, 0x20, 0xA0, 0x1680,
    0x2000, 0x2001, 0x2002, 0x2003, 0x2004, 0x2005, 0x2006, 0x2007, 0x2008,
    0x2009, 0x200A, 0x2028, 0x2029, 0x202F, 0x205F, 0x3000, 0xFEFF]

/-- The method `String.prototype.trim`. -/
def trim (s : String) : String :=
  String.mk ((s.data.dropWhile isJsWhiteSpace).reverse.dropWhile isJsWhiteSpace).reverse

/-! ## Data -/

/-- A browser `File` chosen by the user (content left out: the code never reads it). -/
structure File where
  name : String
  size : Nat
  deriving DecidableEq, Repr

/-- An entry of `qaPairs`: `{ question, answer }`, either possibly `undefined`. -/
structure QA where
  question : Option String
  answer : Option String
  deriving DecidableEq, Repr

/-- The error a rejected promise carries. -/
abbrev Err := String

/-- Body of `POST /upload` response: `{ session_id }`. -/
structure UploadData where
  session_id : Option String
  deriving DecidableEq, Repr

/-- Body of `POST /ask` response: `{ question, answer }`. -/
structure AskData where
  question : Option String
  answer : Option String
  deriving DecidableEq, Repr

/-- Request body handed to axios. -/
inductive Body where
  | empty
  | form (files : List File)
  | json (question : String)
  deriving DecidableEq, Repr

/-- An axios request config. -/
structure Config where
  method : String
  url : String
  headers : Dict
  body : Body
  deriving DecidableEq, Repr

/-! ## api.js -/

/-- The key under which the token is persisted in `localStorage`. -/
def SESSION_KEY : String := "PDFQuery_session_id"

/-- Source `getSessionId`: `localStorage.getItem('PDFQuery_session_id') || null`. -/
def getSessionId (localStorage : Dict) : Option String :=
  match localStorage.get SESSION_KEY with
  | some s => if s != "" then some s else none
  | none => none

/-- Source `hasActiveSession`: `!!getSessionId()`. -/
def hasActiveSession (localStorage : Dict) : Bool :=
  truthy (getSessionId localStorage)

/-- Source `clearSession`: `localStorage.removeItem('PDFQuery_session_id')`. -/
def clearSession (localStorage : Dict) : Dict :=
  localStorage.remove SESSION_KEY

/-- The request interceptor installed with `api.interceptors.request.use`. -/
def interceptor (localStorage : Dict) (config : Config) : Config :=
  let sessionId := getSessionId localStorage
  if truthy sessionId then
    match sessionId with
    | some sid => { config with headers := config.headers.set "X-Session-ID" sid }
    | none => config
  else config

/-! ## The client state -/

/-- State of `App`: `isProcessed`, `qaPairs`. -/
structure AppState where
  isProcessed : Bool
  qaPairs : List QA
  deriving DecidableEq, Repr

/-- State of `FileUpload`: `files`, `uploading`, `processing`. -/
structure FileUploadState where
  files : List File
  uploading : Bool
  processing : Bool
  deriving DecidableEq, Repr

/-- State of `ChatInterfaces`: `question`, `loading`. -/
structure ChatState where
  question : String
  loading : Bool
  deriving DecidableEq, Repr

/-- Everything the client code reads or writes.  `requests` is the log of
requests handed to the network, oldest first; `timers`, `listPending` and
`clearsPending` count callbacks that are scheduled and have not run yet
(`setTimeout` of `handleProcessFiles`, the `getQAPairs` promise of
`checkSession`, the `clearQAPairs` promises of `handleClearChat`). -/
structure World where
  localStorage : Dict
  requests : List Config
  app : AppState
  fileUpload : FileUploadState
  chat : ChatState
  timers : Nat
  listPending : Bool
  clearsPending : Nat
  deriving DecidableEq, Repr

/-- The client right after the first render: every `useState` at its initial
value, nothing sent, nothing scheduled. -/
def mount (localStorage : Dict) : World :=
  { localStorage := localStorage
    requests := []
    app := { isProcessed := false, qaPairs := [] }
    fileUpload := { files := [], uploading := false, processing := false }
    chat := { question := "", loading := false }
    timers := 0
    listPending := false
    clearsPending := 0 }

/-! ## api.js, the remote operations -/

/-- Hands a request to axios (`api.post` / `api.get`): the interceptor runs on
the config, which then goes out. -/
def apiSend (w : World) (config : Config) : World :=
  { w with requests := w.requests ++ [interceptor w.localStorage config] }

/-- Source `uploadFiles` up to its `await`: builds the form data and posts it. -/
def uploadFiles_send (w : World) (files : List File) : World :=
  apiSend w { method := "POST", url := "/upload",
              headers := [("Content-Type", "multipart/form-data")],
              body := Body.form files }

/-- Source `uploadFiles` after its `await`: saves the session id if the response
provides one and returns the data; a failure is rethrown. -/
def uploadFiles_settle (w : World) (response : Except Err UploadData) :
    World × Except Err UploadData :=
  match response with
  | .ok data =>
      if truthy data.session_id then
        match data.session_id with
        | some sid =>
            ({ w with localStorage := w.localStorage.set SESSION_KEY sid }, .ok data)
        | none => (w, .ok data)
      else (w, .ok data)
  | .error error => (w, .error error)

/-- Source `uploadFiles`. -/
def uploadFiles (w : World) (files : List File) (response : Except Err UploadData) :
    World × Except Err UploadData :=
  uploadFiles_settle (uploadFiles_send w files) response

/-- Source `askQuestion` up to its `await`. -/
def askQuestion_send (w : World) (question : String) : World :=
  apiSend w { method := "POST", url := "/ask",
              headers := [("Content-Type", "application/json")],
              body := Body.json question }

/-- Source `askQuestion` after its `await`: returns the data or rethrows. -/
def askQuestion_settle (w : World) (response : Except Err AskData) :
    World × Except Err AskData :=
  (w, response)

/-- Source `getQAPairs` up to its `await`. -/
def getQAPairs_send (w : World) : World :=
  apiSend w { method := "GET", url := "/get_qa_pairs", headers := [], body := Body.empty }

/-- Source `getQAPairs` after its `await`: returns `response.data.qa_pairs`
(`none` when the property is missing) or rethrows.  A pair is a JSON array. -/
def getQAPairs_settle (w : World) (response : Except Err (Option (List (List String)))) :
    World × Except Err (Option (List (List String))) :=
  (w, response)

/-- Source `clearQAPairs` up to its `await`. -/
def clearQAPairs_send (w : World) : World :=
  apiSend w { method := "POST", url := "/clear_qa_pairs", headers := [], body := Body.empty }

/-- Source `clearQAPairs` after its `await`: returns the data or rethrows. -/
def clearQAPairs_settle (w : World) (response : Except Err Unit) : World × Except Err Unit :=
  (w, response)

/-! ## App.js -/

/-- Source `handleProcessed`: `setIsProcessed(true)`. -/
def handleProcessed (w : World) : World :=
  { w with app := { w.app with isProcessed := true } }

/-- Source `handleNewQA`: `setQaPairs(prev => [...prev, newQA])`. -/
def handleNewQA (w : World) (newQA : QA) : World :=
  { w with app := { w.app with qaPairs := w.app.qaPairs ++ [newQA] } }

/-- Source `App.handleClearChat`: `setQaPairs([])`. -/
def App_handleClearChat (w : World) : World :=
  { w with app := { w.app with qaPairs := [] } }

/-- Source `checkSession` up to its `await`: with an active session, marks the
documents as processed and requests the stored pairs; `none` when there is no
active session and the function returns at once. -/
def checkSession_begin (w : World) : Option World :=
  if hasActiveSession w.localStorage then
    let w1 := { w with app := { w.app with isProcessed := true } }
    some { getQAPairs_send w1 with listPending := true }
  else none

/-- Source `checkSession` after its `await`: a non-empty list replaces `qaPairs`
by `{ question: pair[0], answer: pair[1] }` for each pair; a failure is caught. -/
def checkSession_settle (w : World) (response : Except Err (Option (List (List String)))) :
    World :=
  let w0 := { w with listPending := false }
  match getQAPairs_settle w0 response with
  | (w1, .ok existingQAPairs) =>
      match existingQAPairs with
      | some pairs =>
          if pairs.length > 0 then
            { w1 with app := { w1.app with
                qaPairs := pairs.map (fun pair => { question := pair[0]?, answer := pair[1]? }) } }
          else w1
      | none => w1
  | (w1, .error _) => w1

/-- Source `checkSession`, run without anything in between. -/
def checkSession (w : World) (response : Except Err (Option (List (List String)))) : World :=
  match checkSession_begin w with
  | some w1 => checkSession_settle w1 response
  | none => w

/-! ## components/FileUpload.js -/

/-- Source `handleFileChange`: `setFiles(prev => [...prev, ...newFiles])`. -/
def handleFileChange (w : World) (newFiles : List File) : World :=
  { w with fileUpload := { w.fileUpload with files := w.fileUpload.files ++ newFiles } }

/-- Source `handleRemoveFile`: `setFiles(prev => prev.filter((_, i) => i !== index))`. -/
def handleRemoveFile (w : World) (index : Nat) : World :=
  { w with fileUpload := { w.fileUpload with files := w.fileUpload.files.eraseIdx index } }

/-- Source `handleProcessFiles` up to its `await`: `none` when no file is staged
and the function returns at once. -/
def handleProcessFiles_begin (w : World) : Option World :=
  if w.fileUpload.files.length = 0 then none
  else
    let w1 := { w with fileUpload := { w.fileUpload with uploading := true } }
    some (uploadFiles_send w1 w.fileUpload.files)

/-- Source `handleProcessFiles` after its `await`: on success the upload flag is
dropped, the processing flag raised and the two-second timer started; on failure
only the upload flag is dropped. -/
def handleProcessFiles_settle (w : World) (response : Except Err UploadData) : World :=
  match uploadFiles_settle w response with
  | (w1, .ok _) =>
      { w1 with
        fileUpload := { w1.fileUpload with uploading := false, processing := true }
        timers := w1.timers + 1 }
  | (w1, .error _) =>
      { w1 with fileUpload := { w1.fileUpload with uploading := false } }

/-- The callback `handleProcessFiles` gives to `setTimeout`:
`setProcessing(false); onProcessed()`. -/
def processingTimeout (w : World) : World :=
  let w1 := { w with
    fileUpload := { w.fileUpload with processing := false }
    timers := w.timers - 1 }
  handleProcessed w1

/-- Source `handleProcessFiles`, up to the start of the timer. -/
def handleProcessFiles (w : World) (response : Except Err UploadData) : World :=
  match handleProcessFiles_begin w with
  | some w1 => handleProcessFiles_settle w1 response
  | none => w

/-! ## components/ChatInterfaces.js -/

/-- Source `handleQuestionChange`: `setQuestion(e.target.value)`. -/
def handleQuestionChange (w : World) (value : String) : World :=
  { w with chat := { w.chat with question := value } }

/-- Source `handleSubmit` up to its `await`: `none` when the trimmed question is
empty and the function returns at once. -/
def handleSubmit_begin (w : World) : Option World :=
  if !(truthy (some (trim w.chat.question))) then none
  else
    let w1 := { w with chat := { w.chat with loading := true } }
    some (askQuestion_send w1 (trim w.chat.question))

/-- Source `handleSubmit` after its `await`: on success the pair goes to
`onNewQA` and the input is emptied; in both cases `loading` is dropped. -/
def handleSubmit_settle (w : World) (response : Except Err AskData) : World :=
  let w2 :=
    match askQuestion_settle w response with
    | (w1, .ok data) =>
        let w1 := handleNewQA w1 { question := data.question, answer := data.answer }
        { w1 with chat := { w1.chat with question := "" } }
    | (w1, .error _) => w1
  { w2 with chat := { w2.chat with loading := false } }

/-- Source `handleSubmit`. -/
def handleSubmit (w : World) (response : Except Err AskData) : World :=
  match handleSubmit_begin w with
  | some w1 => handleSubmit_settle w1 response
  | none => w

/-- Source `ChatInterfaces.handleClearChat` up to the promise: calls `clearQAPairs`. -/
def handleClearChat_begin (w : World) : World :=
  { clearQAPairs_send w with clearsPending := w.clearsPending + 1 }

/-- Source `ChatInterfaces.handleClearChat`, the `.then` / `.catch` callbacks:
`onClearChat()` on success, nothing on failure. -/
def handleClearChat_settle (w : World) (response : Except Err Unit) : World :=
  let w0 := { w with clearsPending := w.clearsPending - 1 }
  match clearQAPairs_settle w0 response with
  | (w1, .ok _) => App_handleClearChat w1
  | (w1, .error _) => w1

/-- Source `ChatInterfaces.handleClearChat` followed by its callback. -/
def handleClearChat (w : World) (response : Except Err Unit) : World :=
  handleClearChat_settle (handleClearChat_begin w) response

/-! ## The client as a transition system

Things that can happen to the mounted client: a click or keystroke the rendered
page accepts, or a callback that is due.  The guards of the user events are the
`disabled` attributes of the controls and the `isProcessed &&` in front of
`ChatInterfaces`; a callback can run only when it is scheduled.  The export button
(`generatePDF`) opens a URL and writes no state, so it is not an event here. -/

/-- One thing happening to the client. -/
inductive Event where
  /-- The user picks files (`handleFileChange`). -/
  | fileChange (newFiles : List File)
  /-- The user removes a staged file (`handleRemoveFile`). -/
  | removeFile (index : Nat)
  /-- The user clicks "Process Documents" (`handleProcessFiles` up to its `await`). -/
  | processClick
  /-- The reply to `POST /upload` arrives. -/
  | uploadResponse (response : Except Err UploadData)
  /-- The two-second timer fires. -/
  | timeout
  /-- The user edits the question (`handleQuestionChange`). -/
  | questionChange (value : String)
  /-- The user submits the form (`handleSubmit` up to its `await`). -/
  | submit
  /-- The reply to `POST /ask` arrives. -/
  | askResponse (response : Except Err AskData)
  /-- The user clicks "Clear Conversation" (`ChatInterfaces.handleClearChat`). -/
  | clearClick
  /-- The reply to `POST /clear_qa_pairs` arrives. -/
  | clearResponse (response : Except Err Unit)
  /-- The reply to `GET /get_qa_pairs` arrives. -/
  | listResponse (response : Except Err (Option (List (List String))))

/-- One event, `none` when the page does not accept it in this state. -/
def step (w : World) : Event → Option World
  | .fileChange newFiles =>
      if w.fileUpload.uploading || w.fileUpload.processing then none
      else some (handleFileChange w newFiles)
  | .removeFile index =>
      if w.fileUpload.uploading || w.fileUpload.processing then none
      else if index < w.fileUpload.files.length then some (handleRemoveFile w index)
      else none
  | .processClick =>
      if w.fileUpload.files.length = 0 || w.fileUpload.uploading || w.fileUpload.processing
      then none
      else handleProcessFiles_begin w
  | .uploadResponse response =>
      if w.fileUpload.uploading then some (handleProcessFiles_settle w response) else none
  | .timeout =>
      if 0 < w.timers then some (processingTimeout w) else none
  | .questionChange value =>
      if w.app.isProcessed && !w.chat.loading then some (handleQuestionChange w value)
      else none
  | .submit =>
      if w.app.isProcessed && !(!(truthy (some (trim w.chat.question))) || w.chat.loading)
      then handleSubmit_begin w
      else none
  | .askResponse response =>
      if w.chat.loading then some (handleSubmit_settle w response) else none
  | .clearClick =>
      if w.app.isProcessed && !(w.app.qaPairs.length = 0) then some (handleClearChat_begin w)
      else none
  | .clearResponse response =>
      if 0 < w.clearsPending then some (handleClearChat_settle w response) else none
  | .listResponse response =>
      if w.listPending then some (checkSession_settle w response) else none

/-- A sequence of events, `none` as soon as one is not accepted. -/
def run (w : World) : List Event → Option World
  | [] => some w
  | e :: es => (step w e).bind (fun w1 => run w1 es)

/-- The client once the mount effect has run its synchronous part:
`checkSession` up to its `await`. -/
def startup (localStorage : Dict) : World :=
  match checkSession_begin (mount localStorage) with
  | some w => w
  | none => mount localStorage

/-- Phase `Active`: the chat is shown. -/
def phaseActive (w : World) : Bool :=
  w.app.isProcessed

/-- Phase `NoSession`: the chat is not shown, nothing is uploading or processing. -/
def phaseNoSession (w : World) : Bool :=
  !w.app.isProcessed && !w.fileUpload.uploading && !w.fileUpload.processing

/-- The value persisted under the session key. -/
def persistedToken (w : World) : Option String :=
  w.localStorage.get SESSION_KEY

/-- The part of the state the phase invariant talks about: the store, the `isProcessed` flag, the `processing` flag and the number of
pending timers. -/
def sessionView (w : World) : Dict × Bool × Bool × Nat :=
  (w.localStorage, w.app.isProcessed, w.fileUpload.processing, w.timers)

/-- The half of the invariant that holds whatever the server replies: while
nothing is shown as processed or processing, no session is active. -/
def noSessionInv (w : World) : Prop :=
  w.app.isProcessed = false → w.fileUpload.processing = false →
    hasActiveSession w.localStorage = false

/-- The half that needs every successful upload to carry a token: a client that
is processed, processing or waiting for the timer has an active session. -/
def activeInv (w : World) : Prop :=
  (w.app.isProcessed = true ∨ w.fileUpload.processing = true ∨ 0 < w.timers) →
    hasActiveSession w.localStorage = true

/-- An upload reply that, when it is a success, carries a non-empty `session_id`. -/
def carriesToken : Event → Bool
  | .uploadResponse (.ok data) => truthy data.session_id
  | _ => true

/-- One question typed and submitted, the reply awaited before anything else. -/
def ask (w : World) (a : String × Except Err AskData) : World :=
  handleSubmit (handleQuestionChange w a.1) a.2

/-- Questions asked one at a time. -/
def askAll (w : World) (asks : List (String × Except Err AskData)) : World :=
  asks.foldl ask w

/-- The pair a successful reply contributes to the history. -/
def returnedPair : Except Err AskData → Option QA
  | .ok data => some { question := data.question, answer := data.answer }
  | .error _ => none

/-! ## Facts about the JavaScript values -/

theorem Dict.get_set_same (d : Dict) (k v : String) : (d.set k v).get k = some v := by
  induction d with
  | nil => simp [Dict.set, Dict.get]
  | cons p rest ih =>
      obtain ⟨k', v'⟩ := p
      by_cases h : k' = k
      · simp [Dict.set, Dict.get, h]
      · simp [Dict.set, Dict.get, h, ih]

theorem Dict.get_set_other (d : Dict) (k v j : String) (hj : j ≠ k) :
    (d.set k v).get j = d.get j := by
  induction d with
  | nil => simp [Dict.set, Dict.get, Ne.symm hj]
  | cons p rest ih =>
      obtain ⟨k', v'⟩ := p
      by_cases h : k' = k
      · subst h
        simp [Dict.set, Dict.get, Ne.symm hj]
      · by_cases h2 : k' = j
        · subst h2
          simp [Dict.set, Dict.get, h]
        · simp [Dict.set, Dict.get, h, h2, ih]

theorem truthy_eq_true_iff (o : Option String) :
    truthy o = true ↔ ∃ s, o = some s ∧ s ≠ "" := by
  cases o with
  | none => simp [truthy]
  | some s => simp [truthy]

theorem getSessionId_eq_some_iff (localStorage : Dict) (token : String) :
    getSessionId localStorage = some token ↔
      localStorage.get SESSION_KEY = some token ∧ token ≠ "" := by
  unfold getSessionId
  cases h : localStorage.get SESSION_KEY with
  | none => simp
  | some s =>
      by_cases hs : s = ""
      · subst hs
        simp
        intro h1
        exact h1.symm
      · simp [hs]
        intro h1
        subst h1
        exact hs

theorem hasActiveSession_iff (localStorage : Dict) :
    hasActiveSession localStorage = true ↔
      ∃ token, localStorage.get SESSION_KEY = some token ∧ token ≠ "" := by
  unfold hasActiveSession
  rw [truthy_eq_true_iff]
  constructor
  · rintro ⟨s, hs, hne⟩
    exact ⟨s, ((getSessionId_eq_some_iff _ _).1 hs).1, hne⟩
  · rintro ⟨s, hs, hne⟩
    exact ⟨s, (getSessionId_eq_some_iff _ _).2 ⟨hs, hne⟩, hne⟩

theorem trim_of_all_whitespace (s : String) (h : ∀ c ∈ s.data, isJsWhiteSpace c = true) :
    trim s = "" := by
  have h1 : s.data.dropWhile isJsWhiteSpace = [] := by
    rw [List.dropWhile_eq_nil_iff]
    exact h
  unfold trim
  rw [h1]
  rfl

/-! ## Upload staging -/

/-- The continuation of `uploadFiles` touches `localStorage` only and hands the
reply through. -/
theorem uploadFiles_settle_frame (w : World) (response : Except Err UploadData) :
    uploadFiles_settle w response =
      ({ w with localStorage := (uploadFiles_settle w response).1.localStorage }, response) := by
  cases response with
  | error e => rfl
  | ok data =>
      obtain ⟨sid⟩ := data
      cases sid with
      | none => rfl
      | some sid =>
          by_cases ht : sid = ""
          · simp [uploadFiles_settle, truthy, ht]
          · simp [uploadFiles_settle, truthy, ht]

theorem handleProcessFiles_settle_files (w : World) (response : Except Err UploadData) :
    (handleProcessFiles_settle w response).fileUpload.files = w.fileUpload.files := by
  unfold handleProcessFiles_settle
  rw [uploadFiles_settle_frame]
  cases response <;> rfl

theorem handleProcessFiles_files (w : World) (response : Except Err UploadData) :
    (handleProcessFiles w response).fileUpload.files = w.fileUpload.files := by
  unfold handleProcessFiles handleProcessFiles_begin
  by_cases h : w.fileUpload.files.length = 0
  · simp [h]
  · simp only [h, if_false]
    rw [handleProcessFiles_settle_files]
    rfl

/-- C1: when the upload fails (`uploadFiles` throws), the staged file list after
`handleProcessFiles` is the list before it, same elements in the same order, and,
an attempt having been made (the list is not empty), `uploading` is `false` again. -/
theorem handleProcessFiles_failure_keeps_staging (w : World) (error : Err) :
    (uploadFiles w w.fileUpload.files (.error error)).2 = .error error ∧
    (handleProcessFiles w (.error error)).fileUpload.files = w.fileUpload.files ∧
    (w.fileUpload.files ≠ [] →
      (handleProcessFiles w (.error error)).fileUpload.uploading = false) := by
  refine ⟨rfl, handleProcessFiles_files w _, ?_⟩
  intro hne
  have h : ¬ w.fileUpload.files.length = 0 := by
    simpa [List.length_eq_zero] using hne
  simp [handleProcessFiles, handleProcessFiles_begin, h, handleProcessFiles_settle,
    uploadFiles_settle]

/-- C1, at a concrete state: two staged files, the server is unreachable. -/
theorem handleProcessFiles_failure_keeps_staging_witness :
    (handleProcessFiles
        (handleFileChange (mount []) [⟨"a.pdf", 10⟩, ⟨"b.docx", 20⟩])
        (.error "Network Error")).fileUpload.files = [⟨"a.pdf", 10⟩, ⟨"b.docx", 20⟩] ∧
    (handleProcessFiles
        (handleFileChange (mount []) [⟨"a.pdf", 10⟩, ⟨"b.docx", 20⟩])
        (.error "Network Error")).fileUpload.uploading = false :=
  ⟨(handleProcessFiles_failure_keeps_staging
      (handleFileChange (mount []) [⟨"a.pdf", 10⟩, ⟨"b.docx", 20⟩]) "Network Error").2.1,
   (handleProcessFiles_failure_keeps_staging
      (handleFileChange (mount []) [⟨"a.pdf", 10⟩, ⟨"b.docx", 20⟩]) "Network Error").2.2
      (by simp [handleFileChange, mount])⟩

/-- C2 as stated fails: one staged file, the upload succeeds with token `s1`, the
timer fires and the phase is Active, and the file is still staged. -/
theorem staging_cleared_on_success_counterexample :
    phaseActive (processingTimeout (handleProcessFiles
        (handleFileChange (mount []) [⟨"a.pdf", 10⟩]) (.ok ⟨some "s1"⟩))) = true ∧
    (processingTimeout (handleProcessFiles
        (handleFileChange (mount []) [⟨"a.pdf", 10⟩]) (.ok ⟨some "s1"⟩))).fileUpload.files
      = [⟨"a.pdf", 10⟩] ∧
    (processingTimeout (handleProcessFiles
        (handleFileChange (mount []) [⟨"a.pdf", 10⟩]) (.ok ⟨some "s1"⟩))).fileUpload.files
      ≠ [] := by
  refine ⟨rfl, ?_, ?_⟩
  · rw [show ∀ w, (processingTimeout w).fileUpload.files = w.fileUpload.files from fun _ => rfl,
      handleProcessFiles_files]
    rfl
  · rw [show ∀ w, (processingTimeout w).fileUpload.files = w.fileUpload.files from fun _ => rfl,
      handleProcessFiles_files]
    simp [handleFileChange, mount]

/-- C2, amended: when the upload succeeds the staged file list is kept as it is:
after the success path of `handleProcessFiles`, and after the timer has made the
phase Active, it equals the list before; no file is staged or removed by it. -/
theorem handleProcessFiles_success_keeps_staging (w : World) (data : UploadData) :
    (handleProcessFiles w (.ok data)).fileUpload.files = w.fileUpload.files ∧
    (processingTimeout (handleProcessFiles w (.ok data))).fileUpload.files
      = w.fileUpload.files ∧
    phaseActive (processingTimeout (handleProcessFiles w (.ok data))) = true :=
  ⟨handleProcessFiles_files w _, handleProcessFiles_files w _, rfl⟩

/-! ## Who writes the session store -/

/-- C3 as stated fails: with an empty store and a reply `{ session_id: "s1" }`,
the persisted key is absent before `uploadFiles` and holds `s1` when it returns. -/
theorem uploadFiles_leaves_store_counterexample :
    persistedToken (mount []) = none ∧
    persistedToken (uploadFiles (mount []) [⟨"a.pdf", 10⟩] (.ok ⟨some "s1"⟩)).1 = some "s1" ∧
    persistedToken (uploadFiles (mount []) [⟨"a.pdf", 10⟩] (.ok ⟨some "s1"⟩)).1
      ≠ persistedToken (mount []) := by
  refine ⟨rfl, ?_, ?_⟩ <;>
    simp [uploadFiles, uploadFiles_settle, uploadFiles_send, apiSend, truthy, persistedToken,
      mount, Dict.set, Dict.get]

/-- C3, amended: `uploadFiles` itself commits the token.  When the reply is a
success with a non-empty `session_id`, the persisted key holds exactly that
`session_id` when `uploadFiles` returns; when the reply is a failure or carries
no (or an empty) `session_id`, the key has the value it had before.  No other key
of the store changes, and the caller `handleProcessFiles` writes nothing more. -/
theorem uploadFiles_commits_token (w : World) (files : List File)
    (response : Except Err UploadData) :
    persistedToken (uploadFiles w files response).1 =
      (match response with
       | .ok data => if truthy data.session_id then data.session_id else persistedToken w
       | .error _ => persistedToken w) ∧
    (∀ k, k ≠ SESSION_KEY →
      (uploadFiles w files response).1.localStorage.get k = w.localStorage.get k) ∧
    (handleProcessFiles_settle w response).localStorage =
      (uploadFiles_settle w response).1.localStorage := by
  refine ⟨?_, ?_, ?_⟩
  · cases response with
    | error e => rfl
    | ok data =>
        obtain ⟨sid⟩ := data
        cases sid with
        | none => rfl
        | some sid =>
            by_cases ht : sid = ""
            · simp [uploadFiles, uploadFiles_settle, uploadFiles_send, apiSend, truthy,
                persistedToken, ht]
            · simp [uploadFiles, uploadFiles_settle, uploadFiles_send, apiSend, truthy,
                persistedToken, ht, Dict.get_set_same]
  · intro k hk
    cases response with
    | error e => rfl
    | ok data =>
        obtain ⟨sid⟩ := data
        cases sid with
        | none => rfl
        | some sid =>
            by_cases ht : sid = ""
            · simp [uploadFiles, uploadFiles_settle, uploadFiles_send, apiSend, truthy, ht]
            · simp [uploadFiles, uploadFiles_settle, uploadFiles_send, apiSend, truthy, ht,
                Dict.get_set_other _ _ _ _ hk]
  · unfold handleProcessFiles_settle
    rw [uploadFiles_settle_frame]
    cases response <;> rfl

/-- C3, amended, at a concrete state: another key of the store is left alone. -/
theorem uploadFiles_commits_token_witness :
    (uploadFiles (mount [("theme", "dark")]) [⟨"a.pdf", 10⟩]
        (.ok ⟨some "s1"⟩)).1.localStorage.get "theme" = some "dark" :=
  ((uploadFiles_commits_token (mount [("theme", "dark")]) [⟨"a.pdf", 10⟩]
      (.ok ⟨some "s1"⟩)).2.1 "theme" (by decide)).trans (by rfl)

/-! ## Clearing the history -/

/-- C5: the clear action (`ChatInterfaces.handleClearChat`, then
`App.handleClearChat` from its `.then`) leaves the history empty when
`clearQAPairs` succeeds and leaves it exactly as it was when `clearQAPairs`
fails; there is no third outcome. -/
theorem handleClearChat_all_or_nothing (w : World) (response : Except Err Unit) :
    (handleClearChat w response).app.qaPairs =
      (match response with
       | .ok _ => []
       | .error _ => w.app.qaPairs) ∧
    ((handleClearChat w response).app.qaPairs = [] ∨
      (handleClearChat w response).app.qaPairs = w.app.qaPairs) := by
  cases response with
  | ok u => exact ⟨rfl, Or.inl rfl⟩
  | error e => exact ⟨rfl, Or.inr rfl⟩

/-! ## Token injection -/

/-- C10: the request interceptor agrees with the existence check.  When
`hasActiveSession()` is true, the outgoing config has `X-Session-ID` set to exactly
the persisted token, every other header and field as before; when it is false,
the config is returned unchanged.  `hasActiveSession()` is true exactly when
`getSessionId()` returns a token, and a stored empty string is absent for both. -/
theorem interceptor_agrees_with_hasActiveSession (localStorage : Dict) (config : Config) :
    (hasActiveSession localStorage = true →
      ∃ token, localStorage.get SESSION_KEY = some token ∧ token ≠ "" ∧
        getSessionId localStorage = some token ∧
        (interceptor localStorage config).headers.get "X-Session-ID" = some token ∧
        (∀ k, k ≠ "X-Session-ID" →
          (interceptor localStorage config).headers.get k = config.headers.get k) ∧
        (interceptor localStorage config).method = config.method ∧
        (interceptor localStorage config).url = config.url ∧
        (interceptor localStorage config).body = config.body) ∧
    (hasActiveSession localStorage = false → interceptor localStorage config = config) ∧
    (hasActiveSession localStorage = true ↔ (getSessionId localStorage).isSome = true) ∧
    (localStorage.get SESSION_KEY = some "" →
      hasActiveSession localStorage = false ∧ getSessionId localStorage = none) := by
  refine ⟨?_, ?_, ?_, ?_⟩
  · intro h
    obtain ⟨token, hget, hne⟩ := (hasActiveSession_iff localStorage).1 h
    have hsid : getSessionId localStorage = some token :=
      (getSessionId_eq_some_iff _ _).2 ⟨hget, hne⟩
    refine ⟨token, hget, hne, hsid, ?_, ?_, ?_, ?_, ?_⟩
    · simp [interceptor, hsid, truthy, hne, Dict.get_set_same]
    · intro k hk
      simp [interceptor, hsid, truthy, hne, Dict.get_set_other _ _ _ _ hk]
    · simp [interceptor, hsid, truthy, hne]
    · simp [interceptor, hsid, truthy, hne]
    · simp [interceptor, hsid, truthy, hne]
  · intro h
    unfold hasActiveSession at h
    simp [interceptor, h]
  · unfold hasActiveSession
    rw [truthy_eq_true_iff, Option.isSome_iff_exists]
    constructor
    · rintro ⟨s, hs, -⟩
      exact ⟨s, hs⟩
    · rintro ⟨s, hs⟩
      exact ⟨s, hs, ((getSessionId_eq_some_iff _ _).1 hs).2⟩
  · intro h
    have hnone : getSessionId localStorage = none := by
      simp [getSessionId, h]
    exact ⟨by simp [hasActiveSession, hnone, truthy], hnone⟩

/-- C10, at a concrete store holding `s1` and a request with one header. -/
theorem interceptor_agrees_with_hasActiveSession_witness :
    ∃ token, Dict.get [("PDFQuery_session_id", "s1")] SESSION_KEY = some token ∧ token ≠ "" ∧
      getSessionId [("PDFQuery_session_id", "s1")] = some token ∧
      (interceptor [("PDFQuery_session_id", "s1")]
        ⟨"POST", "/ask", [("Content-Type", "application/json")], Body.json "q"⟩).headers.get
          "X-Session-ID" = some token :=
  match (interceptor_agrees_with_hasActiveSession [("PDFQuery_session_id", "s1")]
      ⟨"POST", "/ask", [("Content-Type", "application/json")], Body.json "q"⟩).1 (by decide) with
  | ⟨token, h1, h2, h3, h4, _⟩ => ⟨token, h1, h2, h3, h4⟩

/-! ## Asking -/

/-- C6: a question that is empty or made of whitespace only (the characters
`trim` removes) is rejected by `handleSubmit` before anything happens: no request
is issued (the request log is as before, so nothing goes to `/ask`), and the
history, the `loading` flag and the question input are unchanged; the whole
client state is.  The submit button does not accept the click either. -/
theorem handleSubmit_rejects_blank (w : World) (response : Except Err AskData)
    (hblank : ∀ c ∈ w.chat.question.data, isJsWhiteSpace c = true) :
    handleSubmit w response = w ∧
    (handleSubmit w response).requests = w.requests ∧
    (handleSubmit w response).app.qaPairs = w.app.qaPairs ∧
    (handleSubmit w response).chat.loading = w.chat.loading ∧
    (handleSubmit w response).chat.question = w.chat.question ∧
    step w .submit = none := by
  have ht : trim w.chat.question = "" := trim_of_all_whitespace _ hblank
  have h : handleSubmit w response = w := by
    simp [handleSubmit, handleSubmit_begin, ht, truthy]
  refine ⟨h, by rw [h], by rw [h], by rw [h], by rw [h], ?_⟩
  simp [step, ht, truthy]

/-- C6, at a concrete state: the input holds a space, a tab and a line feed. -/
theorem handleSubmit_rejects_blank_witness :
    handleSubmit (handleQuestionChange (startup [("PDFQuery_session_id", "s1")]) " \t\n")
        (.ok ⟨some "q", some "a"⟩)
      = handleQuestionChange (startup [("PDFQuery_session_id", "s1")]) " \t\n" :=
  (handleSubmit_rejects_blank
    (handleQuestionChange (startup [("PDFQuery_session_id", "s1")]) " \t\n")
    (.ok ⟨some "q", some "a"⟩) (by decide)).1

theorem ask_history (w : World) (a : String × Except Err AskData) (h : trim a.1 ≠ "") :
    (ask w a).app.qaPairs = w.app.qaPairs ++ (returnedPair a.2).toList := by
  obtain ⟨q, r⟩ := a
  have h' : trim q ≠ "" := h
  cases r with
  | ok data =>
      simp [ask, handleSubmit, handleSubmit_begin, handleQuestionChange, truthy, h',
        handleSubmit_settle, askQuestion_settle, askQuestion_send, apiSend, handleNewQA,
        returnedPair]
  | error e =>
      simp [ask, handleSubmit, handleSubmit_begin, handleQuestionChange, truthy, h',
        handleSubmit_settle, askQuestion_settle, askQuestion_send, apiSend, returnedPair]

/-- C8: questions asked one at a time, each reply awaited before the next is
typed.  The history afterwards is the initial history followed by the pairs of
the successful replies in the order the questions were issued; a failed ask
contributes nothing, and the entries already there stay in place. -/
theorem askAll_preserves_order (w : World) (asks : List (String × Except Err AskData))
    (hasked : ∀ a ∈ asks, trim a.1 ≠ "") :
    (askAll w asks).app.qaPairs =
      w.app.qaPairs ++ asks.filterMap (fun a => returnedPair a.2) := by
  induction asks generalizing w with
  | nil => simp [askAll]
  | cons a rest ih =>
      have ha : trim a.1 ≠ "" := hasked a (List.mem_cons_self _ _)
      have hrest : ∀ b ∈ rest, trim b.1 ≠ "" := fun b hb => hasked b (List.mem_cons_of_mem _ hb)
      have hstep : askAll w (a :: rest) = askAll (ask w a) rest := rfl
      rw [hstep, ih (ask w a) hrest, ask_history w a ha]
      cases hr : returnedPair a.2 with
      | none => simp [List.filterMap_cons, hr]
      | some qa => simp [List.filterMap_cons, hr]

/-- C8, at a concrete run: one stored pair, then three questions of which the
second fails. -/
theorem askAll_preserves_order_witness :
    (askAll (handleNewQA (startup [("PDFQuery_session_id", "s1")]) ⟨some "q0", some "a0"⟩)
      [("q1", .ok ⟨some "q1", some "a1"⟩), ("q2", .error "Network Error"),
       (" q3 ", .ok ⟨some "q3", some "a3"⟩)]).app.qaPairs =
      [⟨some "q0", some "a0"⟩, ⟨some "q1", some "a1"⟩, ⟨some "q3", some "a3"⟩] :=
  (askAll_preserves_order
    (handleNewQA (startup [("PDFQuery_session_id", "s1")]) ⟨some "q0", some "a0"⟩)
    [("q1", .ok ⟨some "q1", some "a1"⟩), ("q2", .error "Network Error"),
     (" q3 ", .ok ⟨some "q3", some "a3"⟩)] (by decide)).trans (by rfl)

/-! ## Startup -/

theorem checkSession_begin_active (localStorage : Dict)
    (h : hasActiveSession localStorage = true) :
    checkSession_begin (mount localStorage) =
      some { getQAPairs_send { mount localStorage with
                app := { isProcessed := true, qaPairs := [] } } with listPending := true } := by
  simp [checkSession_begin, mount, h]

/-- C7: startup rehydration.  With a non-empty token persisted, when `getQAPairs`
returns N two-element pairs `[question, answer]`, `checkSession` ends in phase
Active with a history of exactly N entries, entry i being
`{ question: pairs[i][0], answer: pairs[i][1] }`, in the returned order; when
`getQAPairs` fails, the phase is Active all the same and the history is empty. -/
theorem checkSession_rehydrates (localStorage : Dict) (token : String)
    (pairs : List (String × String)) (error : Err)
    (hstored : localStorage.get SESSION_KEY = some token) (htoken : token ≠ "") :
    phaseActive (checkSession (mount localStorage)
        (.ok (some (pairs.map (fun p => [p.1, p.2]))))) = true ∧
    (checkSession (mount localStorage)
        (.ok (some (pairs.map (fun p => [p.1, p.2]))))).app.qaPairs =
      pairs.map (fun p => { question := some p.1, answer := some p.2 }) ∧
    (checkSession (mount localStorage)
        (.ok (some (pairs.map (fun p => [p.1, p.2]))))).app.qaPairs.length = pairs.length ∧
    phaseActive (checkSession (mount localStorage) (.error error)) = true ∧
    (checkSession (mount localStorage) (.error error)).app.qaPairs = [] := by
  have hact : hasActiveSession localStorage = true :=
    (hasActiveSession_iff localStorage).2 ⟨token, hstored, htoken⟩
  have hok : (checkSession (mount localStorage)
        (.ok (some (pairs.map (fun p => [p.1, p.2]))))).app.qaPairs =
      pairs.map (fun p => { question := some p.1, answer := some p.2 }) := by
    unfold checkSession
    rw [checkSession_begin_active localStorage hact]
    cases pairs with
    | nil => rfl
    | cons p rest =>
        simp [checkSession_settle, getQAPairs_settle, getQAPairs_send, apiSend, mount]
  refine ⟨?_, hok, ?_, ?_, ?_⟩
  · unfold checkSession
    rw [checkSession_begin_active localStorage hact]
    cases pairs with
    | nil => rfl
    | cons p rest =>
        simp [checkSession_settle, getQAPairs_settle, getQAPairs_send, apiSend, mount,
          phaseActive]
  · rw [hok, List.length_map]
  · unfold checkSession
    rw [checkSession_begin_active localStorage hact]
    rfl
  · unfold checkSession
    rw [checkSession_begin_active localStorage hact]
    rfl

/-- C7, at a concrete store and reply: token `s1`, two pairs returned. -/
theorem checkSession_rehydrates_witness :
    (checkSession (mount [("PDFQuery_session_id", "s1")])
        (.ok (some [["What is X?", "X is Y."], ["And Z?", "Z too."]]))).app.qaPairs =
      [⟨some "What is X?", some "X is Y."⟩, ⟨some "And Z?", some "Z too."⟩] :=
  (checkSession_rehydrates [("PDFQuery_session_id", "s1")] "s1"
    [("What is X?", "X is Y."), ("And Z?", "Z too.")] "Network Error"
    (by decide) (by decide)).2.1

/-! ## Phase and token: how each handler treats the session view -/

theorem checkSession_settle_view (w : World)
    (response : Except Err (Option (List (List String)))) :
    sessionView (checkSession_settle w response) = sessionView w := by
  unfold checkSession_settle getQAPairs_settle
  cases response with
  | error e => rfl
  | ok r =>
      cases r with
      | none => rfl
      | some pairs =>
          by_cases hp : pairs.length > 0
          · simp [hp, sessionView]
          · simp [hp, sessionView]

theorem handleSubmit_begin_view (w w1 : World) (h : handleSubmit_begin w = some w1) :
    sessionView w1 = sessionView w := by
  unfold handleSubmit_begin at h
  split at h
  · cases h
  · cases h
    rfl

theorem handleSubmit_settle_view (w : World) (response : Except Err AskData) :
    sessionView (handleSubmit_settle w response) = sessionView w := by
  cases response <;> rfl

theorem handleClearChat_settle_view (w : World) (response : Except Err Unit) :
    sessionView (handleClearChat_settle w response) = sessionView w := by
  cases response <;> rfl

theorem handleProcessFiles_begin_view (w w1 : World) (h : handleProcessFiles_begin w = some w1) :
    sessionView w1 = sessionView w := by
  unfold handleProcessFiles_begin at h
  split at h
  · cases h
  · cases h
    rfl

/-- Every event other than an upload reply and the timer leaves the view alone. -/
theorem step_view (w w1 : World) (e : Event) (h : step w e = some w1)
    (hup : ∀ r, e ≠ .uploadResponse r) (htime : e ≠ .timeout) :
    sessionView w1 = sessionView w := by
  cases e with
  | fileChange newFiles =>
      simp only [step] at h
      split at h
      · cases h
      · cases h
        rfl
  | removeFile index =>
      simp only [step] at h
      split at h
      · cases h
      · split at h
        · cases h
          rfl
        · cases h
  | processClick =>
      simp only [step] at h
      split at h
      · cases h
      · exact handleProcessFiles_begin_view w w1 h
  | uploadResponse r => exact absurd rfl (hup r)
  | timeout => exact absurd rfl htime
  | questionChange value =>
      simp only [step] at h
      split at h
      · cases h
        rfl
      · cases h
  | submit =>
      simp only [step] at h
      split at h
      · exact handleSubmit_begin_view w w1 h
      · cases h
  | askResponse r =>
      simp only [step] at h
      split at h
      · cases h
        exact handleSubmit_settle_view w r
      · cases h
  | clearClick =>
      simp only [step] at h
      split at h
      · cases h
        rfl
      · cases h
  | clearResponse r =>
      simp only [step] at h
      split at h
      · cases h
        exact handleClearChat_settle_view w r
      · cases h
  | listResponse r =>
      simp only [step] at h
      split at h
      · cases h
        exact checkSession_settle_view w r
      · cases h

theorem uploadFiles_settle_hasActiveSession (w : World) (data : UploadData)
    (h : truthy data.session_id = true) :
    hasActiveSession (uploadFiles_settle w (.ok data)).1.localStorage = true := by
  obtain ⟨sid, hs, hne⟩ := (truthy_eq_true_iff _).1 h
  rw [hasActiveSession_iff]
  refine ⟨sid, ?_, hne⟩
  simp [uploadFiles_settle, hs, truthy, hne, Dict.get_set_same]

theorem handleProcessFiles_settle_localStorage (w : World) (response : Except Err UploadData) :
    (handleProcessFiles_settle w response).localStorage =
      (uploadFiles_settle w response).1.localStorage := by
  unfold handleProcessFiles_settle
  rw [uploadFiles_settle_frame]
  cases response <;> rfl

theorem handleProcessFiles_settle_flags (w : World) (response : Except Err UploadData) :
    (handleProcessFiles_settle w response).app.isProcessed = w.app.isProcessed ∧
    (handleProcessFiles_settle w response).fileUpload.processing =
      (match response with
       | .ok _ => true
       | .error _ => w.fileUpload.processing) ∧
    (handleProcessFiles_settle w response).timers =
      (match response with
       | .ok _ => w.timers + 1
       | .error _ => w.timers) := by
  unfold handleProcessFiles_settle
  rw [uploadFiles_settle_frame]
  cases response <;> exact ⟨rfl, rfl, rfl⟩

theorem startup_view (localStorage : Dict) :
    sessionView (startup localStorage) =
      (localStorage, hasActiveSession localStorage, false, 0) := by
  by_cases h : hasActiveSession localStorage = true
  · simp [startup, checkSession_begin, mount, h, sessionView, getQAPairs_send, apiSend]
  · simp [startup, checkSession_begin, mount, h, sessionView]

theorem sessionView_eq (w w1 : World) (h : sessionView w1 = sessionView w) :
    w1.localStorage = w.localStorage ∧ w1.app.isProcessed = w.app.isProcessed ∧
    w1.fileUpload.processing = w.fileUpload.processing ∧ w1.timers = w.timers := by
  simp only [sessionView, Prod.mk.injEq] at h
  exact h

theorem step_noSessionInv (w w1 : World) (e : Event) (h : step w e = some w1)
    (hinv : noSessionInv w) : noSessionInv w1 := by
  by_cases hup : ∃ r, e = .uploadResponse r
  · obtain ⟨r, rfl⟩ := hup
    simp only [step] at h
    split at h
    · cases h
      intro hp hproc
      obtain ⟨h1, h2, -⟩ := handleProcessFiles_settle_flags w r
      rw [h1] at hp
      rw [h2] at hproc
      cases r with
      | ok data => cases hproc
      | error err =>
          rw [handleProcessFiles_settle_localStorage]
          exact hinv hp hproc
    · cases h
  · by_cases htime : e = .timeout
    · subst htime
      simp only [step] at h
      split at h
      · cases h
        intro hp
        cases hp
      · cases h
    · have hv := sessionView_eq w w1
        (step_view w w1 e h (fun r hr => hup ⟨r, hr⟩) htime)
      intro hp hproc
      rw [hv.1]
      exact hinv (hv.2.1 ▸ hp) (hv.2.2.1 ▸ hproc)

theorem step_activeInv (w w1 : World) (e : Event) (h : step w e = some w1)
    (hcarries : carriesToken e = true) (hinv : activeInv w) : activeInv w1 := by
  by_cases hup : ∃ r, e = .uploadResponse r
  · obtain ⟨r, rfl⟩ := hup
    simp only [step] at h
    split at h
    · cases h
      intro hprem
      obtain ⟨h1, h2, h3⟩ := handleProcessFiles_settle_flags w r
      rw [handleProcessFiles_settle_localStorage]
      cases r with
      | ok data => exact uploadFiles_settle_hasActiveSession w data hcarries
      | error err =>
          rw [h1, h2, h3] at hprem
          exact hinv hprem
    · cases h
  · by_cases htime : e = .timeout
    · subst htime
      simp only [step] at h
      split at h
      · rename_i hpos
        cases h
        intro _
        exact hinv (Or.inr (Or.inr hpos))
      · cases h
    · have hv := sessionView_eq w w1
        (step_view w w1 e h (fun r hr => hup ⟨r, hr⟩) htime)
      intro hprem
      rw [hv.1]
      rw [hv.2.1, hv.2.2.1, hv.2.2.2] at hprem
      exact hinv hprem

theorem run_noSessionInv (es : List Event) (w w1 : World) (h : run w es = some w1)
    (hinv : noSessionInv w) : noSessionInv w1 := by
  induction es generalizing w with
  | nil =>
      simp only [run, Option.some.injEq] at h
      exact h ▸ hinv
  | cons e rest ih =>
      simp only [run] at h
      cases hs : step w e with
      | none => simp [hs] at h
      | some w2 =>
          rw [hs] at h
          exact ih w2 h (step_noSessionInv w w2 e hs hinv)

theorem run_activeInv (es : List Event) (w w1 : World) (h : run w es = some w1)
    (hcarries : ∀ e ∈ es, carriesToken e = true) (hinv : activeInv w) : activeInv w1 := by
  induction es generalizing w with
  | nil =>
      simp only [run, Option.some.injEq] at h
      exact h ▸ hinv
  | cons e rest ih =>
      simp only [run] at h
      cases hs : step w e with
      | none => simp [hs] at h
      | some w2 =>
          rw [hs] at h
          exact ih w2 h (fun e' he' => hcarries e' (List.mem_cons_of_mem _ he'))
            (step_activeInv w w2 e hs (hcarries e (List.mem_cons_self _ _)) hinv)

/-- C4 as stated fails: from an empty store, one file is staged and uploaded, the
reply is a success without `session_id`, the timer fires.  The client is in phase
Active and no token is in the store. -/
theorem active_implies_token_counterexample :
    (run (startup [])
        [.fileChange [⟨"a.pdf", 10⟩], .processClick, .uploadResponse (.ok ⟨none⟩),
         .timeout]).map (fun w => (phaseActive w, hasActiveSession w.localStorage))
      = some (true, false) := by
  rfl

/-- C4, amended: in every state reached from startup through accepted events,
phase NoSession (not processed, nothing uploading or processing) implies that no
token is present; phase Active implies that a token is present provided every
successful upload reply on the way carried a non-empty `session_id`. -/
theorem phase_token_invariant (localStorage : Dict) (events : List Event) (w : World)
    (hrun : run (startup localStorage) events = some w) :
    (phaseNoSession w = true → hasActiveSession w.localStorage = false) ∧
    ((∀ e ∈ events, carriesToken e = true) →
      phaseActive w = true → hasActiveSession w.localStorage = true) := by
  have hv := startup_view localStorage
  simp only [sessionView, Prod.mk.injEq] at hv
  obtain ⟨hls, hproc, hpg, htm⟩ := hv
  constructor
  · intro hno
    have h0 : noSessionInv (startup localStorage) := by
      intro hp _
      rw [hls]
      rw [hproc] at hp
      exact hp
    have hw := run_noSessionInv events _ w hrun h0
    simp only [phaseNoSession, Bool.and_eq_true, Bool.not_eq_true', Bool.not_eq_eq_eq_not,
      Bool.not_true] at hno
    exact hw hno.1.1 hno.2
  · intro hcarries hact
    have h0 : activeInv (startup localStorage) := by
      intro hprem
      rw [hls]
      rw [hproc, hpg, htm] at hprem
      rcases hprem with h1 | h1 | h1
      · exact h1
      · cases h1
      · exact absurd h1 (Nat.lt_irrefl 0)
    exact run_activeInv events _ w hrun hcarries h0 (Or.inl hact)

/-- C4, amended, at a concrete run: the upload reply carries `s1`. -/
theorem phase_token_invariant_witness :
    hasActiveSession
      (processingTimeout (handleProcessFiles
        (handleFileChange (mount []) [⟨"a.pdf", 10⟩]) (.ok ⟨some "s1"⟩))).localStorage = true :=
  (phase_token_invariant []
    [.fileChange [⟨"a.pdf", 10⟩], .processClick, .uploadResponse (.ok ⟨some "s1"⟩), .timeout]
    (processingTimeout (handleProcessFiles
        (handleFileChange (mount []) [⟨"a.pdf", 10⟩]) (.ok ⟨some "s1"⟩)))
    (by rfl)).2 (by decide) (by rfl)

/-! ## A reply that arrives after the history was cleared -/

/-- C9 as stated fails: with one pair in the history, a question is submitted,
the history is cleared while the ask is outstanding, and then the reply to the
ask arrives.  The reply is appended: the history holds its pair, it is not empty. -/
theorem late_reply_discarded_counterexample :
    (run (startup [("PDFQuery_session_id", "s1")])
        [.listResponse (.ok (some [["q0", "a0"]])), .questionChange "q1", .submit,
         .clearClick, .clearResponse (.ok ()),
         .askResponse (.ok ⟨some "q1", some "a1"⟩)]).map (fun w => w.app.qaPairs)
      = some [⟨some "q1", some "a1"⟩] := by
  rfl

/-- C9, amended: an ask is issued, a clear succeeds while the ask is outstanding,
and then the reply to the ask arrives.  The page accepts all four events, and the
reply is appended to the cleared history: a successful reply leaves the history
holding exactly its pair. -/
theorem late_reply_appended (w : World) (data : AskData)
    (hactive : w.app.isProcessed = true) (hidle : w.chat.loading = false)
    (hquestion : trim w.chat.question ≠ "") (hhistory : w.app.qaPairs ≠ []) :
    ∃ w1, run w [.submit, .clearClick, .clearResponse (.ok ()), .askResponse (.ok data)]
        = some w1 ∧
      w1.app.qaPairs = [{ question := data.question, answer := data.answer }] := by
  have hlen : ¬ w.app.qaPairs.length = 0 := by
    simpa [List.length_eq_zero] using hhistory
  refine ⟨handleSubmit_settle (handleClearChat_settle (handleClearChat_begin
      (askQuestion_send { w with chat := { w.chat with loading := true } }
        (trim w.chat.question))) (.ok ())) (.ok data), ?_, ?_⟩
  · simp [run, step, hactive, hidle, hquestion, truthy, hlen, hhistory, handleSubmit_begin,
      askQuestion_send, apiSend, handleClearChat_begin, clearQAPairs_send,
      handleClearChat_settle, clearQAPairs_settle, App_handleClearChat]
  · simp [handleSubmit_settle, askQuestion_settle, handleNewQA, handleClearChat_settle,
      clearQAPairs_settle, App_handleClearChat]

/-- C9, amended, at a concrete state: token `s1`, the pair `q0`/`a0` rehydrated,
`q1` typed. -/
theorem late_reply_appended_witness :
    ∃ w1, run (handleQuestionChange (checkSession (mount [("PDFQuery_session_id", "s1")])
          (.ok (some [["q0", "a0"]]))) "q1")
        [.submit, .clearClick, .clearResponse (.ok ()),
         .askResponse (.ok ⟨some "q1", some "a1"⟩)] = some w1 ∧
      w1.app.qaPairs = [{ question := some "q1", answer := some "a1" }] :=
  late_reply_appended
    (handleQuestionChange (checkSession (mount [("PDFQuery_session_id", "s1")])
      (.ok (some [["q0", "a0"]]))) "q1")
    ⟨some "q1", some "a1"⟩ (by rfl) (by rfl) (by decide) (by decide)

end PDFQuery
